import Mathlib

/-
Verification of the Azure Sentinel connector (src/azure-sentinel/1.0.0/src/app.py).

The connector is straight-line HTTP glue: every action builds requests from a
flat mapping of string parameters, issues them against a fixed REST API, and
reshapes the JSON response.  We embed it shallowly:

  * JSON values are the inductive type JVal; Python dicts keep insertion order,
    so objects are association lists.
  * A network environment (World) maps each request to the response the remote
    end returns; each action is a pure function of its parameters and the
    World, returning the Python result together with the ordered list of HTTP
    requests it issued.
  * Python code that can raise (KeyError on a missing dict key, json.loads of
    a non-JSON body, attribute errors on non-dict values) is modelled with
    Option: a result of none means the action raised an uncaught exception.
    Requests issued before the raise are still recorded in the trace.
  * Bodies that do not parse as JSON are not representable: a response carries
    both its raw text and its parsed JSON value, since no claim exercises the
    non-JSON-body failure mode of requests Response.json.
-/

namespace AzureSentinel

/-- JSON values as returned by the Sentinel API.  Objects are association
lists in insertion order, matching Python dict semantics. -/
inductive JVal where
  | jnull : JVal
  | jbool : Bool → JVal
  | jnum : Int → JVal
  | jstr : String → JVal
  | jarr : List JVal → JVal
  | jobj : List (String × JVal) → JVal

/-- First value bound to a key in an association list, mirroring Python dict
lookup over an insertion-ordered list of fields. -/
def lookupField : List (String × JVal) → String → Option JVal
  | [], _ => none
  | (k, v) :: fs, key => if k = key then some v else lookupField fs key

/-- Update a key in place when present, otherwise append the binding at the
end, mirroring Python dict item assignment. -/
def setField : List (String × JVal) → String → JVal → List (String × JVal)
  | [], key, v => [(key, v)]
  | (k, w) :: fs, key, v =>
      if k = key then (k, v) :: fs else (k, w) :: setField fs key v

/-- Dict subscript read: some value on a dict that has the key, none when the
key is absent or the value is not a dict (Python raises in both cases, the
distinction between KeyError and TypeError is not needed here). -/
def JVal.getKey : JVal → String → Option JVal
  | .jobj fs, key => lookupField fs key
  | _, _ => none

/-- Whether the value is a dict carrying the key. -/
def JVal.hasKey (v : JVal) (key : String) : Bool :=
  (v.getKey key).isSome

/-- Dict item assignment: defined only on dicts. -/
def JVal.setKey : JVal → String → JVal → Option JVal
  | .jobj fs, key, v => some (.jobj (setField fs key v))
  | _, _, _ => none

/-- The underlying list of a JSON array, none otherwise.  Python iteration
over non-list values (dict keys, string characters) is not modelled: the
connector only ever iterates the incident array of a list response. -/
def JVal.asArr : JVal → Option (List JVal)
  | .jarr xs => some xs
  | _ => none

mutual

/-- Serialization following json.dumps with its default separators
(comma-space between items, colon-space after keys).  String escaping is not
modelled; no claim exercises strings needing escapes. -/
def JVal.dumps : JVal → String
  | .jnull => "null"
  | .jbool true => "true"
  | .jbool false => "false"
  | .jnum n => toString n
  | .jstr s => "\"" ++ s ++ "\""
  | .jarr xs => "[" ++ JVal.dumpsList xs ++ "]"
  | .jobj fs => "\x7b" ++ JVal.dumpsFields fs ++ "\x7d"

/-- Comma-separated serialization of array elements. -/
def JVal.dumpsList : List JVal → String
  | [] => ""
  | [x] => JVal.dumps x
  | x :: y :: xs => JVal.dumps x ++ ", " ++ JVal.dumpsList (y :: xs)

/-- Comma-separated serialization of object fields. -/
def JVal.dumpsFields : List (String × JVal) → String
  | [] => ""
  | [(k, v)] => "\"" ++ k ++ "\": " ++ JVal.dumps v
  | (k, v) :: f :: fs =>
      "\"" ++ k ++ "\": " ++ JVal.dumps v ++ ", " ++ JVal.dumpsFields (f :: fs)

end

/-- Rendering of a value inside a Python f-string.  Scalars follow str();
composite values are approximated by their JSON serialization (Python repr
differs in quote style, but no claim interpolates a composite value). -/
def JVal.fstr : JVal → String
  | .jnull => "None"
  | .jbool true => "True"
  | .jbool false => "False"
  | .jnum n => toString n
  | .jstr s => s
  | v => JVal.dumps v

/-- Python str.split on a one-character separator, the only form the
connector uses (split on comma and on hyphen).  Splitting the empty string
yields a singleton empty piece, as in Python. -/
def splitCharList (sep : Char) : List Char → List (List Char)
  | [] => [[]]
  | c :: t =>
      let r := splitCharList sep t
      if c == sep then [] :: r
      else
        match r with
        | [] => [[c]]
        | h :: rt => (c :: h) :: rt

/-- Python str.split on a one-character separator, at the string level. -/
def pySplitChar (sep : Char) (s : String) : List String :=
  (splitCharList sep s.toList).map String.mk

/-- Python str.join: concatenate the pieces with the separator between
consecutive pieces. -/
def joinSep (sep : String) : List String → String
  | [] => ""
  | [x] => x
  | x :: y :: xs => x ++ sep ++ joinSep sep (y :: xs)

/-- Python str.lower for the ASCII flag values used by the connector. -/
def pyLower (s : String) : String :=
  String.mk (s.toList.map Char.toLower)

/-- Characters removed by Python str.strip with no argument. -/
def pyWhitespace (c : Char) : Bool :=
  c == ' ' || c == '\t' || c == '\n' || c == '\r' || c == '\x0b' || c == '\x0c'

/-- Python str.strip with no argument: drop whitespace from both ends. -/
def pyStrip (s : String) : String :=
  String.mk (((s.toList.dropWhile pyWhitespace).reverse.dropWhile pyWhitespace).reverse)

/-- Python str.strip with a one-character argument: drop every leading and
trailing occurrence of that character. -/
def pyStripChar (c : Char) (s : String) : String :=
  String.mk (((s.toList.dropWhile (· == c)).reverse.dropWhile (· == c)).reverse)

/-- The double-quote character, stripped from entity tags. -/
def dquote : Char :=
  Char.ofNat 34

/-- Membership test of a needle in a list of characters, following the Python
substring operator. -/
def listInfixB (needle : List Char) : List Char → Bool
  | [] => needle.isEmpty
  | c :: t => needle.isPrefixOf (c :: t) || listInfixB needle t

/-- The Python membership operator applied to a string and a JSON value: key
containment on dicts, element equality on lists, substring test on strings;
none on values where the operator raises TypeError. -/
def pyContains (s : String) : JVal → Option Bool
  | .jobj fs => some (lookupField fs s).isSome
  | .jarr xs => some (xs.any fun v => match v with | .jstr t => t == s | _ => false)
  | .jstr t => some (listInfixB s.toList t.toList)
  | _ => none

/-- HTTP methods used by the connector. -/
inductive Method where
  | get : Method
  | post : Method
  | put : Method
deriving DecidableEq

/-- An HTTP request as issued through the requests session: method, URL,
query parameters in insertion order, and the JSON body of a PUT when present.
The form-encoded body of the token request is not modelled; no claim reads
it. -/
structure Request where
  method : Method
  url : String
  params : List (String × String)
  jsonBody : Option JVal

/-- An HTTP response: status code, raw body text, and the body parsed as
JSON.  Carrying the parsed value makes bodies that fail to parse
unrepresentable; no claim exercises that failure mode. -/
structure HttpResponse where
  status_code : Nat
  text : String
  json : JVal

/-- The network environment: the response the remote end returns to each
request. -/
def World : Type :=
  Request → HttpResponse

/-- First value bound to a key among the query parameters. -/
def lookupParam : List (String × String) → String → Option String
  | [], _ => none
  | (k, v) :: ps, key => if k = key then some v else lookupParam ps key

/-- The flat mapping of named string parameters each action receives.
incident_id, get_entities and get_comments are read with dict get in the
source and may be absent, hence Option; the remaining keys are subscripted
directly and are taken as present. -/
structure Kwargs where
  tenant_id : String
  client_id : String
  client_secret : String
  subscription_id : String
  resource_group_name : String
  workspace_name : String
  incident_id : Option String
  status : String
  last_modified : String
  get_entities : Option String
  get_comments : Option String
  close_reason : String
  close_comment : String
  comment : String

/-- The fixed management endpoint, app.py line 23. -/
def azure_url : String :=
  "https://management.azure.com"

/-- The Azure AD token endpoint URL, app.py line 28. -/
def tokenUrl (tenant_id : String) : String :=
  "https://login.microsoftonline.com/" ++ tenant_id ++ "/oauth2/v2.0/token"

/-- The token POST issued by authenticate, app.py line 41. -/
def tokenRequest (k : Kwargs) : Request :=
  { method := .post, url := tokenUrl k.tenant_id, params := [], jsonBody := none }

/-- The outcome dict of authenticate, app.py lines 45 and 49. -/
structure AuthResult where
  success : Bool
  message : String

/-- The authenticate action, app.py lines 25-49, as a function of the token
endpoint response.  The second component is the replacement for the session
default headers: none on the failure path, where the fresh session keeps its
library defaults, and the Authorization and cache-control pair on success.
A missing access_token field renders as None inside the f-string, as in
Python. -/
def authenticate (res : HttpResponse) : AuthResult × Option (List (String × String)) :=
  if res.status_code ≠ 200 then
    ({ success := false, message := res.text }, none)
  else
    let access_token := JVal.fstr ((res.json.getKey "access_token").getD .jnull)
    ({ success := true, message := res.text },
      some [("Authorization", "Bearer " ++ access_token), ("cache-control", "no-cache")])

/-- The incidents collection URL, app.py line 82. -/
def incidentsUrl (k : Kwargs) : String :=
  azure_url ++ "/subscriptions/" ++ k.subscription_id ++ "/resourceGroups/"
    ++ k.resource_group_name ++ "/providers/Microsoft.OperationalInsights/workspaces/"
    ++ k.workspace_name ++ "/providers/Microsoft.SecurityInsights/incidents"

/-- The single-incident URL, app.py lines 134 and 174. -/
def incidentUrl (k : Kwargs) : String :=
  incidentsUrl k ++ "/" ++ (k.incident_id.getD "")

/-- The status part of the OData filter, app.py lines 88-91: split the
comma-separated status list, strip each entry, wrap it in an exact-match
clause, join the clauses with or, and parenthesize. -/
def statusClause (status : String) : String :=
  let status_filters :=
    (pySplitChar ',' status).map (fun x => "properties/status eq \x27" ++ pyStrip x ++ "\x27")
  "( " ++ joinSep " or " status_filters ++ " )"

/-- The query filter built by get_incidents, app.py lines 86-99.  The source
recomputes a local status_filters list inside the last_modified branch
(lines 95-97) that is never read afterwards; being dead, it has no
counterpart here, and line 98 extends the previously built query_filter. -/
def buildQueryFilter (status last_modified : String) : String :=
  let query_filter := if status ≠ "" then statusClause status else ""
  if last_modified ≠ "" then
    query_filter ++ " and (properties/lastModifiedTimeUtc ge " ++ last_modified ++ "Z)"
  else
    query_filter

/-- The incidents list GET, app.py lines 82-105: the api-version parameter
always, and the filter parameter exactly when the built filter is a
non-empty string (Python truthiness on line 101). -/
def incidentsRequest (k : Kwargs) : Request :=
  let query_filter := buildQueryFilter k.status k.last_modified
  { method := .get
    url := incidentsUrl k
    params := [("api-version", "2020-01-01")]
      ++ (if query_filter ≠ "" then [("$filter", query_filter)] else [])
    jsonBody := none }

/-- The single-incident GET, app.py lines 134-137. -/
def incidentRequest (k : Kwargs) : Request :=
  { method := .get, url := incidentUrl k
    params := [("api-version", "2020-01-01")], jsonBody := none }

/-- The entities POST of extract_entities, app.py lines 53-56. -/
def entitiesRequest (incident_uri : String) : Request :=
  { method := .post, url := azure_url ++ incident_uri ++ "/entities"
    params := [("api-version", "2019-01-01-preview")], jsonBody := none }

/-- The comments GET of extract_comments, app.py lines 64-67. -/
def commentsRequest (incident_uri : String) : Request :=
  { method := .get, url := azure_url ++ incident_uri ++ "/comments"
    params := [("api-version", "2020-01-01")], jsonBody := none }

/-- extract_entities, app.py lines 51-60: issue the POST and read the
entities field of the body with an empty-list default; a non-200 status is
only logged. -/
def extract_entities (w : World) (incident_uri : String) : JVal × Request :=
  let req := entitiesRequest incident_uri
  let res := w req
  ((res.json.getKey "entities").getD (.jarr []), req)

/-- extract_comments, app.py lines 62-71: issue the GET and read the value
field of the body with an empty-list default; a non-200 status is only
logged. -/
def extract_comments (w : World) (incident_uri : String) : JVal × Request :=
  let req := commentsRequest incident_uri
  let res := w req
  ((res.json.getKey "value").getD (.jarr []), req)

/-- What a Python action hands back to the caller: a bare dict, a plain
string (the raw response text), or a value serialized through json.dumps. -/
inductive PyResult where
  | pyDict : JVal → PyResult
  | pyStr : String → PyResult
  | pyJson : JVal → PyResult

/-- What json.loads sees when close_incident reparses the nested get_incident
result: the value back on a serialized result, unmodelled on raw response
text (close_incident then either raises inside json.loads or, when the error
body happens to parse, proceeds on foreign data — no claim reaches that
path). -/
def pyLoads : PyResult → Option JVal
  | .pyJson v => some v
  | _ => none

/-- The entity-enrichment loop of get_incidents, app.py lines 112-114: for
each incident read its id (KeyError stops the loop with the requests already
issued), fetch entities, and assign them onto the incident. -/
def enrichEntities (w : World) : List JVal → Option (List JVal) × List Request
  | [] => (some [], [])
  | inc :: rest =>
      match inc.getKey "id" with
      | none => (none, [])
      | some uri =>
          let (ents, req) := extract_entities w (JVal.fstr uri)
          match inc.setKey "entities" ents with
          | none => (none, [req])
          | some inc1 =>
              let (restO, reqs) := enrichEntities w rest
              (restO.map (inc1 :: ·), req :: reqs)

/-- The comment-enrichment loop of get_incidents, app.py lines 118-120. -/
def enrichComments (w : World) : List JVal → Option (List JVal) × List Request
  | [] => (some [], [])
  | inc :: rest =>
      match inc.getKey "id" with
      | none => (none, [])
      | some uri =>
          let (cs, req) := extract_comments w (JVal.fstr uri)
          match inc.setKey "comments" cs with
          | none => (none, [req])
          | some inc1 =>
              let (restO, reqs) := enrichComments w rest
              (restO.map (inc1 :: ·), req :: reqs)

/-- get_incidents, app.py lines 73-122.  Authenticate; on failure return the
error dict.  Issue the list GET; on non-200 return the raw text.  Read the
value field (KeyError when absent), optionally enrich each incident with
entities and then comments, and return the array serialized as JSON. -/
def get_incidents (k : Kwargs) (w : World) : Option PyResult × List Request :=
  let tokenReq := tokenRequest k
  let auth := (authenticate (w tokenReq)).1
  if auth.success = false then
    (some (.pyDict (.jobj [("error", .jstr auth.message)])), [tokenReq])
  else
    let req := incidentsRequest k
    let res := w req
    if res.status_code ≠ 200 then
      (some (.pyStr res.text), [tokenReq, req])
    else
      match res.json.getKey "value" with
      | none => (none, [tokenReq, req])
      | some incidents =>
          let (incO1, tr1) :=
            if pyLower (k.get_entities.getD "") = "true" then
              match incidents.asArr with
              | none => (none, [])
              | some arr =>
                  let (o, reqs) := enrichEntities w arr
                  (o.map JVal.jarr, reqs)
            else (some incidents, [])
          match incO1 with
          | none => (none, [tokenReq, req] ++ tr1)
          | some incidents1 =>
              let (incO2, tr2) :=
                if pyLower (k.get_comments.getD "") = "true" then
                  match incidents1.asArr with
                  | none => (none, [])
                  | some arr =>
                      let (o, reqs) := enrichComments w arr
                      (o.map JVal.jarr, reqs)
                else (some incidents1, [])
              match incO2 with
              | none => (none, [tokenReq, req] ++ tr1 ++ tr2)
              | some incidents2 =>
                  (some (.pyJson incidents2), [tokenReq, req] ++ tr1 ++ tr2)

/-- The fail-fast dict of get_incident, app.py line 127.  The source returns
it as a hand-written JSON string; serializing this value reproduces that
string exactly (proved below). -/
def noIncidentIdResult : JVal :=
  .jobj [("success", .jbool false), ("error", .jstr "No incident ID supplied")]

/-- get_incident, app.py lines 124-150.  Fail fast on a falsy incident_id
without touching the network.  Authenticate with the result bound but never
inspected, issue the single-incident GET, on non-200 return the raw text,
otherwise optionally enrich with entities and comments and serialize. -/
def get_incident (k : Kwargs) (w : World) : Option PyResult × List Request :=
  if k.incident_id.getD "" = "" then
    (some (.pyJson noIncidentIdResult), [])
  else
    let tokenReq := tokenRequest k
    let _auth := (authenticate (w tokenReq)).1
    let req := incidentRequest k
    let res := w req
    if res.status_code ≠ 200 then
      (some (.pyStr res.text), [tokenReq, req])
    else
      let incident := res.json
      let (incO1, tr1) :=
        if pyLower (k.get_entities.getD "") = "true" then
          match incident.getKey "id" with
          | none => (none, [])
          | some uri =>
              let (ents, ereq) := extract_entities w (JVal.fstr uri)
              (incident.setKey "entities" ents, [ereq])
        else (some incident, [])
      match incO1 with
      | none => (none, [tokenReq, req] ++ tr1)
      | some incident1 =>
          let (incO2, tr2) :=
            if pyLower (k.get_comments.getD "") = "true" then
              match incident1.getKey "id" with
              | none => (none, [])
              | some uri =>
                  let (cs, creq) := extract_comments w (JVal.fstr uri)
                  (incident1.setKey "comments" cs, [creq])
            else (some incident1, [])
          match incO2 with
          | none => (none, [tokenReq, req] ++ tr1 ++ tr2)
          | some incident2 =>
              (some (.pyJson incident2), [tokenReq, req] ++ tr1 ++ tr2)

/-- The properties dict of the close payload, app.py lines 163-172: title and
severity from the fetched incident, the literal Closed status, the first
hyphen-separated piece of close_reason as classification, the operator
comment, and, exactly when the split produced more than one piece, the second
piece appended as classificationReason. -/
def closeProperties (title severity : JVal) (close_reason close_comment : String) :
    List (String × JVal) :=
  let close_parts := (pySplitChar '-' close_reason).map pyStrip
  let base : List (String × JVal) :=
    [("title", title),
     ("status", .jstr "Closed"),
     ("severity", severity),
     ("classification", .jstr (close_parts.headD "")),
     ("classificationComment", .jstr close_comment)]
  if close_parts.length > 1 then
    base ++ [("classificationReason", .jstr (close_parts.getD 1 ""))]
  else
    base

/-- The entity tag read by close_incident, app.py line 162: dict get with an
empty default, then strip of double quotes; none when the etag value is not
a string (Python raises on strip). -/
def closeEtag (incident : JVal) : Option String :=
  match incident.getKey "etag" with
  | none => some ""
  | some (.jstr s) => some (pyStripChar dquote s)
  | some _ => none

/-- The full close payload of app.py lines 159-172, none when a required
field of the fetched incident is missing (Python raises KeyError). -/
def buildCloseData (incident : JVal) (close_reason close_comment : String) : Option JVal := do
  let etag ← closeEtag incident
  let props ← incident.getKey "properties"
  let title ← props.getKey "title"
  let severity ← props.getKey "severity"
  pure (.jobj
    [("etag", .jstr etag),
     ("properties", .jobj (closeProperties title severity close_reason close_comment))])

/-- The close PUT, app.py lines 174-177. -/
def closePutRequest (k : Kwargs) (body : JVal) : Request :=
  { method := .put, url := incidentUrl k
    params := [("api-version", "2020-01-01")], jsonBody := some body }

/-- close_incident, app.py lines 152-184.  Reparse the nested get_incident
result; hand it straight back when it contains an error key; otherwise build
the close payload, issue the PUT, and return the response with a success
flag appended, or the raw text on non-200. -/
def close_incident (k : Kwargs) (w : World) : Option PyResult × List Request :=
  let (giO, tr) := get_incident k w
  match giO with
  | none => (none, tr)
  | some gres =>
      match pyLoads gres with
      | none => (none, tr)
      | some incident =>
          match pyContains "error" incident with
          | none => (none, tr)
          | some true => (some (.pyJson incident), tr)
          | some false =>
              match buildCloseData incident k.close_reason k.close_comment with
              | none => (none, tr)
              | some close_data =>
                  let req := closePutRequest k close_data
                  let res := w req
                  if res.status_code ≠ 200 then
                    (some (.pyStr res.text), tr ++ [req])
                  else
                    match res.json.setKey "success" (.jbool true) with
                    | none => (none, tr ++ [req])
                    | some result => (some (.pyJson result), tr ++ [req])

/-- add_comment, app.py lines 186-208.  The comment identifier is a random
UUID in the source; it enters here as the comment_id parameter.  Authenticate
and return the error dict on failure; then build the comment PUT (a missing
incident_id key raises while formatting the URL), and return the response
with a success flag appended, or the raw text on non-200. -/
def add_comment (k : Kwargs) (comment_id : String) (w : World) :
    Option PyResult × List Request :=
  let tokenReq := tokenRequest k
  let auth := (authenticate (w tokenReq)).1
  if auth.success = false then
    (some (.pyDict (.jobj [("error", .jstr auth.message)])), [tokenReq])
  else
    match k.incident_id with
    | none => (none, [tokenReq])
    | some iid =>
        let comment_url := incidentsUrl k ++ "/" ++ iid ++ "/comments"
        let comment_data : JVal := .jobj [("properties", .jobj [("message", .jstr k.comment)])]
        let req : Request :=
          { method := .put, url := comment_url ++ "/" ++ comment_id
            params := [("api-version", "2020-01-01")], jsonBody := some comment_data }
        let res := w req
        if res.status_code ≠ 200 then
          (some (.pyStr res.text), [tokenReq, req])
        else
          match res.json.setKey "success" (.jbool true) with
          | none => (none, [tokenReq, req])
          | some result => (some (.pyJson result), [tokenReq, req])

/-! Helper lemmas about strings and the filter construction. -/

theorem data_append (a b : String) : (a ++ b).data = a.data ++ b.data :=
  rfl

theorem ne_empty_of_data_ne (a : String) (h : a.data ≠ []) : a ≠ "" := by
  intro hc
  rw [hc] at h
  exact h rfl

theorem data_ne_of_ne_empty (a : String) (h : a ≠ "") : a.data ≠ [] := by
  intro hd
  apply h
  cases a with
  | mk d =>
      simp only at hd
      rw [hd]

theorem append_data_ne (a b : String) (h : a.data ≠ []) : (a ++ b).data ≠ [] := by
  rw [data_append]
  intro hc
  exact h (List.append_eq_nil.mp hc).1

theorem statusClause_ne_empty (s : String) : statusClause s ≠ "" := by
  unfold statusClause
  apply ne_empty_of_data_ne
  apply append_data_ne
  apply append_data_ne
  intro h
  cases h

theorem buildQueryFilter_status_only (s : String) (hs : s ≠ "") :
    buildQueryFilter s "" = statusClause s := by
  simp [buildQueryFilter, hs]

theorem buildQueryFilter_both (s lm : String) (hs : s ≠ "") (hlm : lm ≠ "") :
    buildQueryFilter s lm =
      statusClause s ++ " and (properties/lastModifiedTimeUtc ge " ++ lm ++ "Z)" := by
  simp [buildQueryFilter, hs, hlm]

theorem buildQueryFilter_lm_only (lm : String) (hlm : lm ≠ "") :
    buildQueryFilter "" lm =
      " and (properties/lastModifiedTimeUtc ge " ++ lm ++ "Z)" := by
  simp [buildQueryFilter, hlm]

theorem filter_param_eq (k : Kwargs)
    (h : buildQueryFilter k.status k.last_modified ≠ "") :
    lookupParam (incidentsRequest k).params "$filter" =
      some (buildQueryFilter k.status k.last_modified) := by
  show lookupParam ([("api-version", "2020-01-01")]
      ++ (if buildQueryFilter k.status k.last_modified ≠ "" then
            [("$filter", buildQueryFilter k.status k.last_modified)] else [])) "$filter" = _
  rw [if_pos h]
  show (if "api-version" = "$filter" then _ else _) = _
  rw [if_neg (by decide)]
  show (if "$filter" = "$filter" then _ else _) = _
  rw [if_pos rfl]

/-! The claims. -/

/-- C1: authenticate returns success false with the raw response body as the
message on a non-200 token response, leaving the session headers at their
defaults; on a 200 response it extracts access_token from the JSON body,
replaces the session default headers with the Bearer Authorization header,
and returns success true with the raw body as the message. -/
theorem authenticate_token_response (res : HttpResponse) :
    (res.status_code ≠ 200 →
      (authenticate res).1.success = false ∧
      (authenticate res).1.message = res.text ∧
      (authenticate res).2 = none) ∧
    (∀ tok : String, res.status_code = 200 →
      res.json.getKey "access_token" = some (.jstr tok) →
      (authenticate res).1.success = true ∧
      (authenticate res).1.message = res.text ∧
      (authenticate res).2 =
        some [("Authorization", "Bearer " ++ tok), ("cache-control", "no-cache")]) := by
  constructor
  · intro h
    simp [authenticate, h]
  · intro tok h htok
    simp [authenticate, h, htok, JVal.fstr]

/-- A 401 token response used to exercise the failure path. -/
def resp401 : HttpResponse :=
  { status_code := 401, text := "denied", json := .jnull }

/-- A 200 token response carrying an access token. -/
def resp200 : HttpResponse :=
  { status_code := 200, text := "tokenbody", json := .jobj [("access_token", .jstr "tok123")] }

theorem authenticate_token_response_witness :
    ((authenticate resp401).1.success = false ∧
     (authenticate resp401).1.message = "denied" ∧
     (authenticate resp401).2 = none) ∧
    ((authenticate resp200).1.success = true ∧
     (authenticate resp200).1.message = "tokenbody" ∧
     (authenticate resp200).2 =
       some [("Authorization", "Bearer tok123"), ("cache-control", "no-cache")]) :=
  ⟨(authenticate_token_response resp401).1 (by decide),
   (authenticate_token_response resp200).2 "tok123" rfl rfl⟩

/-- On a successful authentication, get_incidents issues the token request
followed by the incidents list request, whatever happens afterwards. -/
theorem get_incidents_trace_shape (k : Kwargs) (w : World)
    (h : (authenticate (w (tokenRequest k))).1.success = true) :
    (get_incidents k w).2.take 2 = [tokenRequest k, incidentsRequest k] := by
  simp only [get_incidents, h, Bool.true_eq_false, if_false]
  split
  · rfl
  · split
    · rfl
    · split
      · rfl
      · split
        · rfl
        · split
          · rfl
          · rfl

/-- C2: with status given as "New, Active" and last_modified empty, the
filter parameter of the incidents list request is exactly the two-clause
disjunction from the spec; in general each comma-separated status is
stripped, wrapped in an exact-match clause, the clauses are joined with or
and parenthesized (statusClause), and that string is passed as the filter.
The first conjunct ties the request to the get_incidents trace. -/
theorem get_incidents_status_filter (k : Kwargs) (w : World)
    (hauth : (authenticate (w (tokenRequest k))).1.success = true) :
    (get_incidents k w).2.take 2 = [tokenRequest k, incidentsRequest k] ∧
    (k.status = "New, Active" → k.last_modified = "" →
      lookupParam (incidentsRequest k).params "$filter" =
        some "( properties/status eq \x27New\x27 or properties/status eq \x27Active\x27 )") ∧
    (k.status ≠ "" → k.last_modified = "" →
      lookupParam (incidentsRequest k).params "$filter" = some (statusClause k.status)) := by
  refine ⟨get_incidents_trace_shape k w hauth, ?_, ?_⟩
  · intro hs hlm
    have hsne : k.status ≠ "" := by rw [hs]; decide
    have hne : buildQueryFilter k.status k.last_modified ≠ "" := by
      rw [hlm, buildQueryFilter_status_only k.status hsne]
      exact statusClause_ne_empty k.status
    rw [filter_param_eq k hne, hlm, buildQueryFilter_status_only k.status hsne, hs]
    decide
  · intro hs hlm
    have hne : buildQueryFilter k.status k.last_modified ≠ "" := by
      rw [hlm, buildQueryFilter_status_only k.status hs]
      exact statusClause_ne_empty k.status
    rw [filter_param_eq k hne, hlm, buildQueryFilter_status_only k.status hs]

/-- Action parameters used by the witnesses: both enrichment flags absent,
status set to the two-state list of the spec scenario. -/
def sampleK : Kwargs :=
  { tenant_id := "tn", client_id := "ci", client_secret := "cs",
    subscription_id := "sub", resource_group_name := "rg", workspace_name := "ws",
    incident_id := some "inc1", status := "New, Active", last_modified := "",
    get_entities := none, get_comments := none,
    close_reason := "FalsePositive-InaccurateData", close_comment := "done",
    comment := "hello" }

/-- A healthy environment: the token POST succeeds with a token, every other
request returns 200 with an empty incident list body. -/
def sampleW : World := fun req =>
  if req.method = Method.post then resp200
  else { status_code := 200, text := "ok", json := .jobj [("value", .jarr [])] }

theorem get_incidents_status_filter_witness :
    (get_incidents sampleK sampleW).2.take 2 = [tokenRequest sampleK, incidentsRequest sampleK] ∧
    lookupParam (incidentsRequest sampleK).params "$filter" =
      some "( properties/status eq \x27New\x27 or properties/status eq \x27Active\x27 )" :=
  ⟨(get_incidents_status_filter sampleK sampleW rfl).1,
   (get_incidents_status_filter sampleK sampleW rfl).2.1 rfl rfl⟩

/-- C3: when both status and last_modified are non-empty, the filter
parameter is the status clause followed by the and-connected last-modified
condition. -/
theorem get_incidents_combined_filter (k : Kwargs)
    (hs : k.status ≠ "") (hlm : k.last_modified ≠ "") :
    lookupParam (incidentsRequest k).params "$filter" =
      some (statusClause k.status ++ " and (properties/lastModifiedTimeUtc ge "
        ++ k.last_modified ++ "Z)") := by
  have hb := buildQueryFilter_both k.status k.last_modified hs hlm
  have hne : buildQueryFilter k.status k.last_modified ≠ "" := by
    rw [hb]
    apply ne_empty_of_data_ne
    apply append_data_ne
    apply append_data_ne
    apply append_data_ne
    exact data_ne_of_ne_empty _ (statusClause_ne_empty k.status)
  rw [filter_param_eq k hne, hb]

/-- Parameters with both filter inputs set. -/
def sampleK3 : Kwargs :=
  { sampleK with status := "New", last_modified := "2021-09-01T00:00:00" }

theorem get_incidents_combined_filter_witness :
    lookupParam (incidentsRequest sampleK3).params "$filter" =
      some (statusClause "New"
        ++ " and (properties/lastModifiedTimeUtc ge 2021-09-01T00:00:00Z)") :=
  get_incidents_combined_filter sampleK3 (by decide) (by decide)

/-- C4 as stated says that when both status and last_modified are given, the
filter built earlier in the call is discarded from the final filter.  At
status New with a concrete last_modified, the final filter retains the
previously built status clause as its prefix, refuting the discarding. -/
theorem lastModified_branch_cex :
    buildQueryFilter "New" "2021-09-01T00:00:00" =
      statusClause "New" ++ " and (properties/lastModifiedTimeUtc ge 2021-09-01T00:00:00Z)" ∧
    statusClause "New" = "( properties/status eq \x27New\x27 )" ∧
    (statusClause "New").data.isPrefixOf
      (buildQueryFilter "New" "2021-09-01T00:00:00").data = true := by
  refine ⟨by decide, by decide, by decide⟩

/-- C4 amended: the last_modified branch does recompute a status filter list
from the raw status input, but that recomputed list is dead, and the final
filter extends the previously built query_filter, which is therefore
retained as a prefix, not discarded. -/
theorem lastModified_branch_retains_filter (s lm : String)
    (hs : s ≠ "") (hlm : lm ≠ "") :
    (statusClause s).data <+: (buildQueryFilter s lm).data := by
  rw [buildQueryFilter_both s lm hs hlm, data_append, data_append, data_append,
    List.append_assoc, List.append_assoc]
  exact Exists.intro _ rfl

theorem lastModified_branch_retains_filter_witness :
    (statusClause "New").data <+: (buildQueryFilter "New" "2021-09-01T00:00:00").data :=
  lastModified_branch_retains_filter "New" "2021-09-01T00:00:00" (by decide) (by decide)

/-- C10: with an empty status and a non-empty last_modified, the filter
parameter is sent and is the malformed string that starts with a dangling
" and ", because the empty query_filter is prepended. -/
theorem dangling_filter_empty_status (k : Kwargs)
    (hs : k.status = "") (hlm : k.last_modified ≠ "") :
    lookupParam (incidentsRequest k).params "$filter" =
      some (" and (properties/lastModifiedTimeUtc ge " ++ k.last_modified ++ "Z)") ∧
    (" and ").data <+:
      (" and (properties/lastModifiedTimeUtc ge " ++ k.last_modified ++ "Z)").data := by
  have hb : buildQueryFilter k.status k.last_modified
      = " and (properties/lastModifiedTimeUtc ge " ++ k.last_modified ++ "Z)" := by
    rw [hs]
    exact buildQueryFilter_lm_only _ hlm
  constructor
  · have hne : buildQueryFilter k.status k.last_modified ≠ "" := by
      rw [hb]
      apply ne_empty_of_data_ne
      apply append_data_ne
      apply append_data_ne
      decide
    rw [filter_param_eq k hne, hb]
  · have hsplit : (" and (properties/lastModifiedTimeUtc ge " ++ k.last_modified ++ "Z)").data
        = (" and ").data
          ++ ("(properties/lastModifiedTimeUtc ge ".data ++ (k.last_modified.data ++ "Z)".data)) := by
      rw [data_append, data_append]
      have hlit : (" and (properties/lastModifiedTimeUtc ge ").data
          = (" and ").data ++ "(properties/lastModifiedTimeUtc ge ".data := by decide
      rw [hlit, List.append_assoc, List.append_assoc]
    rw [hsplit]
    exact Exists.intro _ rfl

/-- Parameters with an empty status and a last-modified bound. -/
def sampleK10 : Kwargs :=
  { sampleK with status := "", last_modified := "2021-09-01T00:00:00" }

theorem dangling_filter_empty_status_witness :
    lookupParam (incidentsRequest sampleK10).params "$filter" =
      some " and (properties/lastModifiedTimeUtc ge 2021-09-01T00:00:00Z)" ∧
    (" and ").data <+:
      (" and (properties/lastModifiedTimeUtc ge 2021-09-01T00:00:00Z)").data :=
  dangling_filter_empty_status sampleK10 rfl (by decide)

/-- C5: with an absent or empty incident_id, get_incident returns the
fail-fast value, whose serialization is exactly the literal string of
app.py line 127, and issues no request at all. -/
theorem get_incident_missing_id (k : Kwargs) (w : World)
    (h : k.incident_id.getD "" = "") :
    get_incident k w = (some (.pyJson noIncidentIdResult), []) ∧
    JVal.dumps noIncidentIdResult =
      "\x7b\"success\": false, \"error\": \"No incident ID supplied\"\x7d" := by
  constructor
  · unfold get_incident
    rw [if_pos h]
  · decide

/-- Action parameters with the incident identifier absent. -/
def sampleK5 : Kwargs :=
  { sampleK with incident_id := none }

theorem get_incident_missing_id_witness :
    get_incident sampleK5 sampleW = (some (.pyJson noIncidentIdResult), []) ∧
    JVal.dumps noIncidentIdResult =
      "\x7b\"success\": false, \"error\": \"No incident ID supplied\"\x7d" :=
  get_incident_missing_id sampleK5 sampleW rfl

/-- C7: get_incident never inspects the authenticate result: under a failing
token response and a non-empty incident_id it still issues the
single-incident GET right after the token request, while get_incidents and
add_comment return the error dict after the token request alone. -/
theorem auth_result_inspection (k : Kwargs) (w : World) (cid : String)
    (hfail : (w (tokenRequest k)).status_code ≠ 200) :
    (k.incident_id.getD "" ≠ "" →
      (get_incident k w).2.take 2 = [tokenRequest k, incidentRequest k]) ∧
    get_incidents k w =
      (some (.pyDict (.jobj [("error", .jstr (w (tokenRequest k)).text)])), [tokenRequest k]) ∧
    add_comment k cid w =
      (some (.pyDict (.jobj [("error", .jstr (w (tokenRequest k)).text)])), [tokenRequest k]) := by
  have hsucc : (authenticate (w (tokenRequest k))).1.success = false := by
    simp [authenticate, hfail]
  have hmsg : (authenticate (w (tokenRequest k))).1.message = (w (tokenRequest k)).text := by
    simp [authenticate, hfail]
  refine ⟨?_, ?_, ?_⟩
  · intro hid
    simp only [get_incident, hid, if_false]
    split
    · rfl
    · split
      · rfl
      · split
        · rfl
        · rfl
  · simp [get_incidents, hsucc, hmsg]
  · simp [add_comment, hsucc, hmsg]

/-- An environment whose token endpoint always fails with 401. -/
def failW : World := fun _ => resp401

theorem auth_result_inspection_witness :
    (get_incident sampleK failW).2.take 2 = [tokenRequest sampleK, incidentRequest sampleK] ∧
    get_incidents sampleK failW =
      (some (.pyDict (.jobj [("error", .jstr "denied")])), [tokenRequest sampleK]) ∧
    add_comment sampleK "cid0" failW =
      (some (.pyDict (.jobj [("error", .jstr "denied")])), [tokenRequest sampleK]) :=
  ⟨(auth_result_inspection sampleK failW "cid0" (by decide)).1 (by decide),
   (auth_result_inspection sampleK failW "cid0" (by decide)).2.1,
   (auth_result_inspection sampleK failW "cid0" (by decide)).2.2⟩

/-- Every request get_incident can issue is a token POST, an incident GET,
an entities POST or a comments GET: never a PUT. -/
theorem get_incident_no_put (k : Kwargs) (w : World) :
    ((get_incident k w).2.all (fun r => r.method != Method.put)) = true := by
  simp only [get_incident, extract_entities, extract_comments]
  repeat' split
  all_goals rfl

/-- C8: when the value reparsed from the nested get_incident result is an
object with an error key, close_incident returns exactly that object,
re-serialized, and its whole trace is the get_incident trace, which contains
no PUT: no close payload is sent and no state-changing call is made. -/
theorem close_incident_error_passthrough (k : Kwargs) (w : World)
    (v : JVal) (tr : List Request)
    (hgi : get_incident k w = (some (.pyJson v), tr))
    (herr : v.hasKey "error" = true) :
    close_incident k w = (some (.pyJson v), tr) ∧
    ∀ r ∈ tr, r.method ≠ Method.put := by
  have hcontains : pyContains "error" v = some true := by
    cases v <;> simp [JVal.hasKey, JVal.getKey] at herr
    simp [pyContains, herr]
  constructor
  · simp [close_incident, hgi, pyLoads, hcontains]
  · intro r hr
    have hall := get_incident_no_put k w
    rw [hgi] at hall
    simp only [List.all_eq_true] at hall
    have hbne := hall r hr
    simpa using hbne

theorem close_incident_error_passthrough_witness :
    close_incident sampleK5 sampleW = (some (.pyJson noIncidentIdResult), []) :=
  (close_incident_error_passthrough sampleK5 sampleW noIncidentIdResult []
    rfl (by decide)).1

/-- C6: splitting the close reason.  With the composite reason of the spec
scenario the classification is FalsePositive and the classificationReason is
InaccurateData; with a reason whose hyphen split has a single piece, the
properties carry no classificationReason key at all; in general the
classification is the head of the hyphen split with each piece stripped of
surrounding whitespace. -/
theorem close_reason_split_spec :
    (∀ t sv cc,
      lookupField (closeProperties t sv "FalsePositive-InaccurateData" cc)
        "classification" = some (.jstr "FalsePositive") ∧
      lookupField (closeProperties t sv "FalsePositive-InaccurateData" cc)
        "classificationReason" = some (.jstr "InaccurateData")) ∧
    (∀ t sv cr cc, (pySplitChar '-' cr).length = 1 →
      lookupField (closeProperties t sv cr cc) "classificationReason" = none) ∧
    (∀ t sv cr cc,
      lookupField (closeProperties t sv cr cc) "classification" =
        some (.jstr (((pySplitChar '-' cr).map pyStrip).headD ""))) := by
  refine ⟨?_, ?_, ?_⟩
  · intro t sv cc
    have hsplit : (pySplitChar '-' "FalsePositive-InaccurateData").map pyStrip
        = ["FalsePositive", "InaccurateData"] := by decide
    constructor <;> simp [closeProperties, hsplit, lookupField]
  · intro t sv cr cc h
    simp [closeProperties, h, lookupField]
  · intro t sv cr cc
    simp only [closeProperties]
    split <;> simp [lookupField]

theorem close_reason_split_spec_witness :
    lookupField (closeProperties (.jstr "T") (.jstr "High") "TruePositive" "c")
      "classificationReason" = none ∧
    lookupField (closeProperties (.jstr "T") (.jstr "High")
      "FalsePositive-InaccurateData" "c") "classification" =
        some (.jstr "FalsePositive") :=
  ⟨close_reason_split_spec.2.1 (.jstr "T") (.jstr "High") "TruePositive" "c" (by decide),
   (close_reason_split_spec.1 (.jstr "T") (.jstr "High") "c").1⟩

/-- C9: the close payload carries, inside properties, the title and severity
copied unchanged from the fetched incident, status set to the literal
Closed, and classificationComment set to the close_comment input; the etag,
stored at the top level of the payload next to properties, is the fetched
etag with surrounding double quotes stripped. -/
theorem close_payload_fields (incident p tv sv : JVal) (et cr cc : String)
    (hp : incident.getKey "properties" = some p)
    (ht : p.getKey "title" = some tv)
    (hs : p.getKey "severity" = some sv)
    (he : incident.getKey "etag" = some (.jstr et)) :
    buildCloseData incident cr cc =
      some (.jobj [("etag", .jstr (pyStripChar dquote et)),
                   ("properties", .jobj (closeProperties tv sv cr cc))]) ∧
    lookupField (closeProperties tv sv cr cc) "title" = some tv ∧
    lookupField (closeProperties tv sv cr cc) "status" = some (.jstr "Closed") ∧
    lookupField (closeProperties tv sv cr cc) "severity" = some sv ∧
    lookupField (closeProperties tv sv cr cc) "classificationComment" = some (.jstr cc) := by
  refine ⟨?_, ?_, ?_, ?_, ?_⟩
  · simp [buildCloseData, closeEtag, he, hp, ht, hs]
  all_goals (simp only [closeProperties]; split <;> simp [lookupField])

/-- The properties object of the sample incident. -/
def sampleProps : JVal :=
  .jobj [("title", .jstr "Title 1"), ("severity", .jstr "High")]

/-- A fetched incident with a quoted entity tag. -/
def sampleIncident : JVal :=
  .jobj [("etag", .jstr "\"etag-1\""),
         ("id", .jstr "/subscriptions/sub/incidents/inc1"),
         ("properties", sampleProps)]

theorem close_payload_fields_witness :
    buildCloseData sampleIncident "FalsePositive-InaccurateData" "done" =
      some (.jobj [("etag", .jstr "etag-1"),
                   ("properties", .jobj (closeProperties (.jstr "Title 1") (.jstr "High")
                      "FalsePositive-InaccurateData" "done"))]) ∧
    lookupField (closeProperties (.jstr "Title 1") (.jstr "High")
      "FalsePositive-InaccurateData" "done") "status" = some (.jstr "Closed") := by
  have h := close_payload_fields sampleIncident sampleProps (.jstr "Title 1") (.jstr "High")
    "\"etag-1\"" "FalsePositive-InaccurateData" "done" rfl rfl rfl rfl
  exact ⟨h.1, h.2.2.1⟩

end AzureSentinel


